import Mathlib

/-!
Verification development for the Growler HTTP core: a shallow embedding of
`growler/http/parser.py`, `growler/http/responder.py`, `growler/middleware_chain.py`
and the routing section of `growler/app.py`, together with theorems settling the
specified properties of these components.

Decoded client data is modelled as `List Char` (Python `str` after the utf-8
decode in `Parser.consume`); Python string primitives used by the source
(`str.split`, `str.strip`, `str.find`, negative indexing, `startswith`,
`endswith`) are embedded as executable functions below.
-/

deriving instance DecidableEq for Except

namespace Growler

/-- Python `str` values (after decoding). -/
abbrev Str := List Char

/-- Whitespace characters recognised by Python's `str.split()` / `str.strip()`:
space, tab, newline, carriage return, vertical tab, form feed. -/
def pyIsSpaceChar (c : Char) : Bool :=
  c = ' ' || c = '\t' || c = '\n' || c = '\r' || c = Char.ofNat 11 || c = Char.ofNat 12

/-- Python `s.split()` (no separator): the maximal runs of non-whitespace
characters, i.e. splitting at whitespace and discarding empty pieces. -/
def pySplitWs (s : Str) : List Str :=
  (s.splitOnP pyIsSpaceChar).filter (fun w => !w.isEmpty)

/-- Drop leading Python whitespace. -/
def pyStripLeading : Str → Str
  | [] => []
  | c :: rest => if pyIsSpaceChar c then pyStripLeading rest else c :: rest

/-- Python `s.strip()`: remove leading and trailing whitespace. -/
def pyStrip (s : Str) : Str :=
  pyStripLeading (pyStripLeading s.reverse).reverse

/-- Helper for `pyFind`: scan for the first index at which `sub` occurs. -/
def pyFindAux (sub : Str) : Str → Nat → Int
  | s, i =>
    if sub.isPrefixOf s then (i : Int)
    else
      match s with
      | [] => -1
      | _ :: rest => pyFindAux sub rest (i + 1)

/-- Python `s.find(sub)`: index of the first occurrence of `sub`, or `-1`. -/
def pyFind (s sub : Str) : Int :=
  pyFindAux sub s 0

/-- Python indexing `s[i]` with negative-index wraparound: a negative `i`
counts from the end of the string. Out-of-range access gives `none`
(an `IndexError` in Python). -/
def pyIndex (s : Str) (i : Int) : Option Char :=
  if i < 0 then
    if 0 ≤ (s.length : Int) + i then s[((s.length : Int) + i).toNat]? else none
  else s[i.toNat]?

/-- Recursion worker for `pySplitOn`, structurally recursive on a fuel bound
so that it reduces inside the kernel. Every step consumes at least one
character of the string, so fuel equal to the string's length never runs out;
the `0` fallback is unreachable from `pySplitOn`. -/
def pySplitOnFuel (sep : Str) : Nat → Str → List Str
  | _, [] => [[]]
  | 0, s => [s]
  | fuel + 1, c :: rest =>
    if sep ≠ [] ∧ sep.isPrefixOf (c :: rest) then
      [] :: pySplitOnFuel sep fuel ((c :: rest).drop sep.length)
    else
      match pySplitOnFuel sep fuel rest with
      | [] => [[c]]
      | t :: ts => (c :: t) :: ts

/-- Python `s.split(sep)` for a non-empty separator: split at each
(non-overlapping, leftmost-first) occurrence of `sep`, keeping empty pieces.
For `sep = []` (not used by the source) the string is returned whole. -/
def pySplitOn (sep : Str) (s : Str) : List Str :=
  pySplitOnFuel sep s.length s

/-- Python `s.endswith(suf)`. -/
def pyEndsWith (s suf : Str) : Bool :=
  suf.isSuffixOf s

/-- Python `s.split(sep, 1)` for a one-character separator, unpacked into two
parts: `none` when the separator does not occur (the `ValueError` path of
tuple unpacking). -/
def pySplitOnceChar (sep : Char) : Str → Option (Str × Str)
  | [] => none
  | c :: rest =>
    if c = sep then some ([], rest)
    else
      match pySplitOnceChar sep rest with
      | none => none
      | some (a, b) => some (c :: a, b)

/-- Python `s.upper()` (ASCII header names in this program). -/
def pyUpper (s : Str) : Str :=
  s.map Char.toUpper

/-! ## Data model -/

/-- Modelled from the spec: the HTTP error classes (`growler/http/Error.py` /
`growler/http/errors.py`) are not among the sources; the spec's error taxonomy
(§7) lists the kinds raised by the parser, the responder and the dispatcher.
`BadRequest` carries the phrase it is raised with; `NotImplemented` carries the
offending method token. -/
inductive BadRequestPhrase where
  /-- `HTTPErrorBadRequest()` raised with no phrase argument. -/
  | default
  /-- the phrase string "Unexpected body data sent". -/
  | unexpectedBody
  /-- the phrase "Content length exceeds expected value (%d > %d)" formatted
  with the observed count and the raw header value. -/
  | lengthExceeded (observed : Int) (expected : Str)
deriving DecidableEq

inductive HTTPError where
  | BadRequest (phrase : BadRequestPhrase)
  | NotImplemented (method : Str)
  | VersionNotSupported
  | InvalidHeader
  | InternalServerError
deriving DecidableEq

/-- Python runtime exceptions observable from the embedded code, alongside the
HTTP error classes that the source raises deliberately. -/
inductive PyErr where
  | http (e : HTTPError)
  /-- e.g. subscripting or adding to `None`, or an unorderable `>` comparison. -/
  | typeError
  /-- missing dictionary key. -/
  | keyError
  /-- attribute lookup on an object that does not define it. -/
  | attributeError
  /-- `list.pop` on an empty list. -/
  | indexError
deriving DecidableEq

/-- A committed header value: a single string, or the list built by
continuation-line folding (`Parser.store_headers_from_lines`). -/
inductive HeaderValue where
  | str (s : Str)
  | list (l : List Str)
deriving DecidableEq

/-- The `self.headers` dictionary: insertion-ordered mapping from upper-cased
names to values. -/
abbrev Headers := List (Str × HeaderValue)

/-- Python dict assignment `d[k] = v`: updates the value in place when the key
exists (keeping its position), otherwise appends the pair. -/
def dictSet (d : Headers) (k : Str) (v : HeaderValue) : Headers :=
  match d with
  | [] => [(k, v)]
  | (k', v') :: rest => if k' = k then (k, v) :: rest else (k', v') :: dictSet rest k v

/-- Python dict lookup `d[k]`, with `none` for the `KeyError` case. -/
def dictGet (d : Headers) (k : Str) : Option HeaderValue :=
  match d with
  | [] => none
  | (k', v') :: rest => if k' = k then some v' else dictGet rest k

/-- Modelled from the spec: `urllib.parse.urlparse` is standard-library code;
per §4.1/§6 the request-target is decomposed by standard URL rules, for the
origin-form targets of this server a path and the query string after the first
question mark. The parser additionally stores percent-decoded `self.path` and
`self.query = parse_qs(...)`; both are pure functions of this value and are not
part of the committed request line, so they are not modelled separately. -/
structure ParsedUrl where
  path : Str
  query : Str
deriving DecidableEq

def pyUrlparse (uri : Str) : ParsedUrl :=
  match pySplitOnceChar '?' uri with
  | none => ⟨uri, []⟩
  | some (p, q) => ⟨p, q⟩

/-- The request line committed by `Parser.parse_request_line` and handed to the
parent through `set_request_line(self.method, self.parsed_url, self.version)`. -/
structure RequestLine where
  method : Str
  parsed_url : ParsedUrl
  version : Str
deriving DecidableEq

/-! ## Line/Header parser (`growler/http/parser.py`) -/

/-- Characters rejected in header names, `INVALID_CHAR_REGEX`:
`[\x00-\x1F\x7F(),/:;<=>?@\[\]{} \t\\\"]`. -/
def isInvalidHeaderChar (c : Char) : Bool :=
  c.toNat ≤ 31 || c.toNat = 127 || c = ' ' || c = '\t' || c = '\\' || c = '\"' ||
  c = '(' || c = ')' || c = ',' || c = '/' || c = ':' || c = ';' || c = '<' ||
  c = '=' || c = '>' || c = '?' || c = '@' || c = '[' || c = ']' ||
  c = Char.ofNat 123 || c = Char.ofNat 125

/-- `Parser.is_invalid_header_name`: empty, or containing a forbidden
character. -/
def is_invalid_header_name (s : Str) : Bool :=
  s = [] || s.any isInvalidHeaderChar

/-- `Parser.header_from_line`: split on the first colon, strip both parts,
validate the name and upper-case it. A line without a colon (the `ValueError`
of the two-element unpacking) and an invalid name both raise
`HTTPErrorInvalidHeader`. -/
def header_from_line (line : Str) : Except HTTPError (Str × Str) :=
  match pySplitOnceChar ':' line with
  | none => .error .InvalidHeader
  | some (k, v) =>
    let key := pyStrip k
    let value := pyStrip v
    if is_invalid_header_name key then .error .InvalidHeader
    else .ok (pyUpper key, value)

/-- Mutable state of `Parser`. The decoded pending buffer `_buffer` is a list
of string fragments joined before splitting, exactly as in the source. The two
trailing fields record the calls the parser makes on its parent
(`set_request_line` / `set_headers`) so that the committed results are
observable; see `ParentCall`. -/
structure Parser where
  EOL_TOKEN : Option Str := none
  buffer : List Str := []
  header_buffer : Option (Str × HeaderValue) := none
  headers : Headers := []
  needs_request_line : Bool := true
  needs_headers : Bool := true
deriving DecidableEq

/-- A call made by the parser on its parent responder during `consume`. -/
inductive ParentCall where
  | setRequestLine (rl : RequestLine)
  | setHeaders (hs : Headers)
deriving DecidableEq

/-- `Parser._find_newline`, as a pure step: given the current `EOL_TOKEN` and
the newly received string, return the (possibly newly fixed) token and the
`find` result. When the token is undetermined, the first `\n` of the string
decides it by inspecting `string[line_end_pos-1]` — with Python's
negative-index wraparound when the newline is the first character. -/
def find_newline (eol : Option Str) (s : Str) : Option Str × Int :=
  match eol with
  | some tok => (some tok, pyFind s tok)
  | none =>
    let pos := pyFind s ['\n']
    if pos = -1 then (none, -1)
    else
      let tok := if pyIndex s (pos - 1) = some '\r' then ['\r', '\n'] else ['\n']
      (some tok, pyFind s tok)

/-- `Parser._flush_header_buffer`: store the pending slot into `self.headers`
and clear it. When there is no pending slot, `self._header_buffer['key']`
subscripts `None`, a `TypeError`. -/
def flush_header_buffer (hb : Option (Str × HeaderValue)) (hs : Headers) :
    Except PyErr (Option (Str × HeaderValue) × Headers) :=
  match hb with
  | none => .error .typeError
  | some (k, v) => .ok (none, dictSet hs k v)

/-- `Parser.store_headers_from_lines`, threading the pending slot and the
committed dictionary. An empty line flushes the slot and stops (`break`),
dropping any remaining lines of this call. A line starting with space or tab
extends the pending slot (turning a scalar value into a list), or raises
`HTTPErrorInvalidHeader` when no slot is pending. Any other line first flushes
a pending slot, then becomes the new slot via `header_from_line`. -/
def store_headers_from_lines (hb : Option (Str × HeaderValue)) (hs : Headers) :
    List Str → Except PyErr (Option (Str × HeaderValue) × Headers)
  | [] => .ok (hb, hs)
  | line :: rest =>
    if line = [] then
      flush_header_buffer hb hs
    else if line.head? = some ' ' ∨ line.head? = some '\t' then
      match hb with
      | none => .error (.http .InvalidHeader)
      | some (k, v) =>
        let line' := pyStrip line
        let v' := match v with
          | .str s => HeaderValue.list [s, line']
          | .list l => HeaderValue.list (l ++ [line'])
        store_headers_from_lines (some (k, v')) hs rest
    else
      let hs' := match hb with
        | some (k, v) => dictSet hs k v
        | none => hs
      match header_from_line line with
      | .error e => .error (.http e)
      | .ok (k, v) => store_headers_from_lines (some (k, .str v)) hs' rest

/-- `Parser.parse_request_line`: split into exactly three whitespace-separated
tokens (`ValueError` of the unpacking gives `HTTPErrorBadRequest`), require the
version to be one of the two supported literals (`HTTPErrorVersionNotSupported`
otherwise), require the method to be a key of the header-processing table
(`GET` / `POST`; `HTTPErrorNotImplemented` otherwise), and parse the
request-target. -/
def parse_request_line (req_line : Str) : Except HTTPError RequestLine :=
  match pySplitWs req_line with
  | [method, request_uri, version] =>
    if version ≠ "HTTP/1.1".toList ∧ version ≠ "HTTP/1.0".toList then
      .error .VersionNotSupported
    else if method ≠ "GET".toList ∧ method ≠ "POST".toList then
      .error (.NotImplemented method)
    else
      .ok ⟨method, pyUrlparse request_uri, version⟩
  | _ => .error (.BadRequest .default)

/-- The tail of `Parser.consume` after the request line has been handled:
`if not lines: return`, then header processing while `needs_headers`, with
`set_headers` reported once the pending slot is empty. Exceptions abort the
call; the partially mutated parser object is not observed further by any
property below, so the error result carries no state. -/
def Parser.consumeLines (p : Parser) (calls : List ParentCall) (lines : List Str) :
    Except PyErr (Parser × List ParentCall × Option Str) :=
  if lines = [] then .ok (p, calls, none)
  else if p.needs_headers then
    match store_headers_from_lines p.header_buffer p.headers lines with
    | .error e => .error e
    | .ok (hb', hs') =>
      if hb' = none then
        .ok ({ p with header_buffer := hb', headers := hs', needs_headers := false },
             calls ++ [.setHeaders hs'], none)
      else
        .ok ({ p with header_buffer := hb', headers := hs' }, calls, none)
  else .ok (p, calls, none)

/-- `Parser.consume`. The utf-8 decode is the identity on the decoded strings
modelled here (its `UnicodeDecodeError` path is outside these properties).
If the (possibly just determined) EOL token is not found in the new data, the
data is appended to `_buffer`. Otherwise the joined buffer plus data is split
on the token, the final element is popped back into the buffer unless the data
ends with the token, the first line is consumed as the request line while
`needs_request_line`, and the remaining lines feed header processing. Every
`return` of the source returns `None`, so the third component is always
`none`. -/
def Parser.consume (p : Parser) (data : Str) :
    Except PyErr (Parser × List ParentCall × Option Str) :=
  match find_newline p.EOL_TOKEN data with
  | (none, _) =>
      .ok ({ p with buffer := p.buffer ++ [data] }, [], none)
  | (some tok, found) =>
      if found = -1 then
        .ok ({ p with EOL_TOKEN := some tok, buffer := p.buffer ++ [data] }, [], none)
      else
        let lines0 := pySplitOn tok (p.buffer.join ++ data)
        let last_line := lines0.getLast?.getD []
        let lines1 := lines0.dropLast
        let p2 : Parser :=
          if pyEndsWith data tok then { p with EOL_TOKEN := some tok, buffer := [] }
          else { p with EOL_TOKEN := some tok, buffer := [last_line] }
        if p2.needs_request_line then
          match lines1 with
          | [] => .error .indexError
          | first :: restLines =>
            match parse_request_line first with
            | .error e => .error (.http e)
            | .ok rl =>
                Parser.consumeLines { p2 with needs_request_line := false }
                  [ParentCall.setRequestLine rl] restLines
        else
          Parser.consumeLines p2 [] lines1

/-- Feed a sequence of chunks to one parser, accumulating the parent calls. -/
def Parser.feed (p : Parser) (calls : List ParentCall) :
    List Str → Except PyErr (Parser × List ParentCall)
  | [] => .ok (p, calls)
  | d :: ds =>
    match p.consume d with
    | .error e => .error e
    | .ok (p', cs, _) => Parser.feed p' (calls ++ cs) ds

/-- Run a fresh parser over a chunk sequence. -/
def Parser.run (chunks : List Str) : Except PyErr (Parser × List ParentCall) :=
  Parser.feed {} [] chunks

/-! ## Responder (`growler/http/responder.py`) -/

/-- Modelled from the spec: `growler/http/methods.py` (`HTTPMethod`) is not
among the sources. Per §4.2/§9 the declared content length is initialised per
method, for POST and PUT; the source test
`method in (HTTPMethod.POST, HTTPMethod.PUT)` is modelled as comparison of the
method token with those two names. -/
def methodAllowsBody (m : Str) : Bool :=
  m = "POST".toList || m = "PUT".toList

/-- The key under which the parser commits the content length header. -/
def CONTENT_LENGTH : Str := "CONTENT-LENGTH".toList

/-- State of one `GrowlerHTTPResponder` together with the `_proto.client_*`
fields it reads and writes through its properties. `content_length` and
`body_buffer` are class attributes that start as `None`; `req_built` and
`app_begun` record whether `build_req_and_res` and `begin_application` ran
(modelled from the spec: the request/response factories
`growler/http/request.py` / `growler/http/response.py` are not among the
sources; §4.3 has the Responder build the pair and start the Dispatcher);
`body_result` is the payload passed to `req.body.set_result`. -/
structure Responder where
  client_method : Option Str := none
  client_headers : Option Headers := none
  parsed_request : Option RequestLine := none
  content_length : Option Int := none
  body_buffer : Option (List Str) := none
  parser : Parser := {}
  req_built : Bool := false
  app_begun : Bool := false
  body_result : Option Str := none
deriving DecidableEq

/-- `GrowlerHTTPResponder.set_request_line`: record method and parsed request
on the protocol, and initialise `content_length` to `0` for the body-carrying
methods. -/
def Responder.set_request_line (r : Responder) (rl : RequestLine) : Responder :=
  { r with
    client_method := some rl.method
    parsed_request := some rl
    content_length := if methodAllowsBody rl.method then some 0 else r.content_length }

/-- Apply the calls the parser makes on its parent during `consume`.
`set_request_line` is a method of `GrowlerHTTPResponder`; `set_headers` is not
(the class only defines a property setter named `headers`), so that call
raises `AttributeError`. -/
def Responder.applyParentCalls (r : Responder) : List ParentCall → Except PyErr Responder
  | [] => .ok r
  | .setRequestLine rl :: rest => Responder.applyParentCalls (r.set_request_line rl) rest
  | .setHeaders _ :: rest => .error .attributeError

/-- Python 3 comparison `int > v` where `v` is a header value as the parser
stores it (a `str`, or a `list` of `str` after folding): the operand types are
unorderable, so the comparison raises `TypeError`. -/
def pyGtIntHeaderValue (_n : Int) (_v : HeaderValue) : Except PyErr Bool :=
  .error .typeError

/-- Python 3 equality `int == v` for a `str` or `list` value: cross-type
equality is `False`, without an exception. -/
def pyEqIntHeaderValue (_n : Int) (_v : HeaderValue) : Bool :=
  false

/-- The `try` block of `GrowlerHTTPResponder.validate_and_store_body_data`:
`self.content_length += len(data)` (a `TypeError` when `content_length` is
still `None`), then the guard
`self.content_length > self.headers['CONTENT-LENGTH']` — a `TypeError` when
`self.headers` is `None`, a `KeyError` when the key is absent, a `TypeError`
from the int/str comparison otherwise — raising the length-exceeded
`HTTPErrorBadRequest` when the comparison would be true. On no raise, the new
cumulative count is returned. -/
def validate_body_try (r : Responder) (data : Str) : Except PyErr Int :=
  match r.content_length with
  | none => .error .typeError
  | some n =>
    let n' := n + (data.length : Int)
    match r.client_headers with
    | none => .error .typeError
    | some hs =>
      match dictGet hs CONTENT_LENGTH with
      | none => .error .keyError
      | some v =>
        match pyGtIntHeaderValue n' v with
        | .error e => .error e
        | .ok true =>
          .error (.http (.BadRequest (.lengthExceeded n'
            (match v with | .str s => s | .list _ => []))))
        | .ok false => .ok n'

/-- `GrowlerHTTPResponder.validate_and_store_body_data`: the `except
(AttributeError, TypeError, KeyError)` clause converts those exceptions into
`HTTPErrorBadRequest("Unexpected body data sent")`; other exceptions (the
deliberate length-exceeded `HTTPErrorBadRequest`) propagate. After a
successful validation, `self.body_buffer.append(data)` runs outside the `try`:
`body_buffer` is the class attribute `None` unless something initialised it,
and appending to `None` is an (uncaught) `AttributeError`. The in-place
mutation of `content_length` before a raise is not observed by any property
below, so error results carry no state. -/
def Responder.validate_and_store_body_data (r : Responder) (data : Str) :
    Except PyErr Responder :=
  match validate_body_try r data with
  | .error .typeError | .error .keyError | .error .attributeError =>
    .error (.http (.BadRequest .unexpectedBody))
  | .error e => .error e
  | .ok n' =>
    match r.body_buffer with
    | none => .error .attributeError
    | some buf =>
      .ok { r with content_length := some n', body_buffer := some (buf ++ [data]) }

/-- The body branch of `GrowlerHTTPResponder.on_data` (`if data: ...`):
validate and store the chunk, then
`if self.content_length == self.headers['CONTENT-LENGTH']` resolve the
request's body with the joined buffer. The equality re-reads the fields the
way the source does; after a successful validation they are necessarily
present, and the int/str equality is `False`. -/
def Responder.bodyPath (r : Responder) (data : Str) : Except PyErr Responder :=
  match r.validate_and_store_body_data data with
  | .error e => .error e
  | .ok r' =>
    match r'.content_length with
    | none => .error .typeError
    | some n =>
      match r'.client_headers with
      | none => .error .typeError
      | some hs =>
        match dictGet hs CONTENT_LENGTH with
        | none => .error .keyError
        | some v =>
          if pyEqIntHeaderValue n v then
            match r'.body_buffer with
            | none => .error .attributeError
            | some bufs => .ok { r' with body_result := some bufs.join }
          else .ok r'

/-- `GrowlerHTTPResponder.on_data`. While `self.headers is None` the data goes
to `self.parser.consume`, whose parent calls act on the responder; a non-`None`
return value (body data past the headers, per the factory contract documented
in the class) triggers `build_req_and_res` and `begin_application` in the same
call, and then the generic `if data:` body branch. When headers are already
present, `data` is left untouched by the parser and goes to the body branch
directly. -/
def Responder.on_data (r : Responder) (data : Str) : Except PyErr Responder :=
  if r.client_headers = none then
    match r.parser.consume data with
    | .error e => .error e
    | .ok (p', calls, ret) =>
      match Responder.applyParentCalls { r with parser := p' } calls with
      | .error e => .error e
      | .ok r' =>
        match ret with
        | none => .ok r'
        | some rest =>
          let r'' := { r' with req_built := true, app_begun := true }
          if rest ≠ [] then r''.bodyPath rest else .ok r''
  else
    if data ≠ [] then r.bodyPath data else .ok r

/-! ## Middleware chain (`growler/middleware_chain.py`) -/

/-- A registered Python function object: an identity and the parameter count
reported by `inspect.signature(func).parameters`. -/
structure PyFunc where
  id : Nat
  arity : Nat
deriving DecidableEq

/-- One `MiddlewareTuple` (`namedtuple('MiddlewareTuple', ['func', 'path',
'err'])`). -/
structure MiddlewareTuple where
  func : PyFunc
  path : Str
  err : Bool
deriving DecidableEq

structure MiddlewareChain where
  mw_list : List MiddlewareTuple := []
deriving DecidableEq

/-- `MiddlewareChain.add(method_mask, path, func)`:
`is_err = len(signature(func).parameters) == 3`, and the tuple is appended.
The `method_mask` argument is accepted but not stored anywhere. -/
def MiddlewareChain.add (c : MiddlewareChain) (_method_mask : Nat) (path : Str)
    (func : PyFunc) : MiddlewareChain :=
  let is_err : Bool := func.arity == 3
  { c with mw_list := c.mw_list ++ [⟨func, path, is_err⟩] }

/-- `MiddlewareChain.__call__(path, method)`: `yield from self.mw_list`. -/
def MiddlewareChain.call (c : MiddlewareChain) (_path : Str) (_method : Str) :
    List MiddlewareTuple :=
  c.mw_list

/-- `MiddlewareChain.__contains__`: identity membership over the stored
functions. -/
def MiddlewareChain.hasFunc (c : MiddlewareChain) (f : PyFunc) : Bool :=
  c.mw_list.any (fun mw => mw.func == f)

/-! ## Routing section of the dispatcher (`growler/app.py`,
`App._handle_connection`) -/

/-- Outcome of the routing section. -/
inductive RoutingOutcome (α : Type) where
  /-- the loop body never ran, so the following
  `self._call_and_handle_error(route, req, res)` reads the never-assigned
  local `route`: an `UnboundLocalError` (a `NameError`), uncaught, escaping
  `_handle_connection`. -/
  | unboundLocal
  /-- `raise HTTPErrorInternalServerError()` executed inside the loop for a
  falsy yielded route; no `try` surrounds it, so it escapes
  `_handle_connection` without visiting the error hooks. -/
  | raisedInternalServerError
  /-- the loop finished; dispatch proceeds by invoking the last yielded route
  through `_call_and_handle_error`. -/
  | callRoute (h : α)
deriving DecidableEq

/-- The routing section of `App._handle_connection`:

```
route_generator = self.routers[0].match_routes(req)
for route in route_generator:
    waitforme = asyncio.Future()
    if not route:
        raise HTTPErrorInternalServerError()
yield from self._call_and_handle_error(route, req, res)
```

Modelled from the spec: `growler/router.py` (`Router.match_routes`) is not
among the sources; per §6 the router yields zero or more ordered candidate
handlers for the request. The yielded sequence is the argument `routes`, with
`none` standing for a falsy yielded value. -/
def routing_stage {α : Type} : List (Option α) → RoutingOutcome α
  | [] => .unboundLocal
  | none :: _ => .raisedInternalServerError
  | [some h] => .callRoute h
  | some _ :: r :: rest => routing_stage (r :: rest)

/-! ## Theorems -/

/-- A valid request-line-plus-header block used by several properties. -/
def sampleRequest : Str := "GET / HTTP/1.1\r\nHOST: a\r\n\r\n".toList

/-- The request line committed for `sampleRequest`. -/
def sampleRequestLine : RequestLine :=
  ⟨"GET".toList, ⟨"/".toList, []⟩, "HTTP/1.1".toList⟩

/-- C1: chunk-boundary invariance of the parser fails. Feeding
`"GET / HTTP/1.1\r\nHOST: a\r\n\r\n"` whole commits the request line and the
header collection `{HOST: a}`; feeding the identical bytes split after the
`\r` of the first line makes `_find_newline` see the `\n` at index 0 of the
second chunk, read `string[-1]` (the chunk's last character) as the
"preceding" character, fix the EOL token to `"\n"`, and then fail with
`HTTPErrorInvalidHeader` on the stray `"\r"` line. -/
theorem chunk_invariance_violated :
    (Parser.run [sampleRequest]).map (fun x => x.2)
      = .ok [ParentCall.setRequestLine sampleRequestLine,
             ParentCall.setHeaders [("HOST".toList, .str "a".toList)]]
    ∧ Parser.run ["GET / HTTP/1.1\r".toList, "\nHOST: a\r\n\r\n".toList]
      = .error (.http .InvalidHeader) := by
  constructor
  · decide
  · decide

/-- C2: the responder handoff never happens. On the complete request block the
parser does reach header completion — its parent calls end with
`set_headers` — but `consume` returns `None` rather than the remaining data,
so the `data is not None` branch of `on_data` that builds the
request/response pair is unreachable; moreover the `set_headers` call itself
raises `AttributeError` because `GrowlerHTTPResponder` defines no such method,
so `on_data` fails before building anything. -/
theorem responder_handoff_violated :
    (Parser.consume {} sampleRequest).map (fun x => (x.2.1, x.2.2))
      = .ok ([ParentCall.setRequestLine sampleRequestLine,
              ParentCall.setHeaders [("HOST".toList, .str "a".toList)]], none)
    ∧ Responder.on_data {} sampleRequest = .error .attributeError := by
  constructor
  · decide
  · decide

/-- C3 counterexample: registering a function that declares 3 parameters
yields an entry whose error-handler flag is `true`, and a 4-parameter function
yields `false` — the opposite of the claimed classification. -/
theorem role_inference_claim_false :
    ((MiddlewareChain.add {} 0 [] ⟨0, 3⟩).mw_list.head?.map MiddlewareTuple.err
        = some true)
    ∧ ((MiddlewareChain.add {} 0 [] ⟨1, 4⟩).mw_list.head?.map MiddlewareTuple.err
        = some false) := by
  constructor
  · decide
  · decide

/-- C3 (amended): `MiddlewareChain.add` appends exactly one entry whose
error-handler flag is `true` precisely when the function declares 3
parameters (so 3 parameters ⇒ error handler, 4 parameters ⇒ normal stage),
and the flag is part of the stored tuple, fixed at registration time. -/
theorem role_inference_amended (c : MiddlewareChain) (mask : Nat) (path : Str)
    (f : PyFunc) :
    (c.add mask path f).mw_list = c.mw_list ++ [⟨f, path, f.arity == 3⟩] :=
  rfl

/-- C4 counterexample: a chain holding one error-handler entry registered for
path `/a` still yields that entry when queried for path `/b` and method `GET`
— error handlers are not excluded and neither path filter nor method is
consulted. -/
theorem middleware_matching_claim_false :
    (MiddlewareChain.add {} 0 "/a".toList ⟨0, 3⟩).call "/b".toList "GET".toList
      = [⟨⟨0, 3⟩, "/a".toList, true⟩] := by
  decide

/-- C4 (amended): querying the middleware chain yields every registered entry
in registration order, regardless of the request path, the request method,
and the entry's error-handler flag. -/
theorem middleware_matching_amended (c : MiddlewareChain) (path method : Str) :
    c.call path method = c.mw_list :=
  rfl

/-- The responder state of a POST connection whose protocol holds the
committed headers `{CONTENT-LENGTH: "5"}` — the value a string, exactly as
`Parser.header_from_line` stores header values. -/
def postResponder : Responder :=
  { client_method := some "POST".toList
    client_headers := some [(CONTENT_LENGTH, .str "5".toList)]
    content_length := some 0 }

/-- C5: body length enforcement is broken. With `Content-Length: 5` declared,
delivering 6 body bytes through `on_data` raises
`BadRequest("Unexpected body data sent")` — not the length-exceeded phrase
citing observed and expected counts, because the guard compares the `int`
cumulative count with the header value stored as the string `"5"` and the
`TypeError` is converted by the `except` clause — and delivering exactly 5
bytes raises the same `BadRequest` instead of resolving the body. -/
theorem body_length_enforcement_broken :
    Responder.on_data postResponder "hello!".toList
      = .error (.http (.BadRequest .unexpectedBody))
    ∧ Responder.on_data postResponder "hello".toList
      = .error (.http (.BadRequest .unexpectedBody)) := by
  constructor
  · decide
  · decide

/-- Helper: `parse_request_line` on a line splitting into three tokens reduces
to the version and method checks. -/
theorem parse_request_line_eq_of_split (line m u v : Str)
    (h : pySplitWs line = [m, u, v]) :
    parse_request_line line =
      (if v ≠ "HTTP/1.1".toList ∧ v ≠ "HTTP/1.0".toList then
        .error .VersionNotSupported
      else if m ≠ "GET".toList ∧ m ≠ "POST".toList then
        .error (.NotImplemented m)
      else
        .ok ⟨m, pyUrlparse u, v⟩) := by
  unfold parse_request_line
  rw [h]

/-- Helper: `parse_request_line` on a line not splitting into three tokens is
the `ValueError` path, `HTTPErrorBadRequest`. -/
theorem parse_request_line_eq_bad (line : Str)
    (h : (pySplitWs line).length ≠ 3) :
    parse_request_line line = .error (.BadRequest .default) := by
  unfold parse_request_line
  rcases hsp : pySplitWs line with _ | ⟨a, _ | ⟨b, _ | ⟨c, _ | ⟨d, l⟩⟩⟩⟩ <;>
    simp_all

/-- C6: request-line error taxonomy. A line with fewer or more than three
whitespace-separated tokens gives `BadRequest`; three tokens whose version is
neither supported literal give `VersionNotSupported`; three tokens with a
supported version but a method outside the handler table (`GET`/`POST`) give
`NotImplemented`. -/
theorem request_line_error_taxonomy (line : Str) :
    ((pySplitWs line).length ≠ 3 →
      parse_request_line line = .error (.BadRequest .default))
    ∧ (∀ m u v, pySplitWs line = [m, u, v] →
        v ≠ "HTTP/1.1".toList → v ≠ "HTTP/1.0".toList →
        parse_request_line line = .error .VersionNotSupported)
    ∧ (∀ m u v, pySplitWs line = [m, u, v] →
        (v = "HTTP/1.1".toList ∨ v = "HTTP/1.0".toList) →
        m ≠ "GET".toList → m ≠ "POST".toList →
        parse_request_line line = .error (.NotImplemented m)) := by
  refine ⟨parse_request_line_eq_bad line,
    fun m u v h hv1 hv0 => ?_, fun m u v h hv hm1 hm2 => ?_⟩
  · rw [parse_request_line_eq_of_split line m u v h, if_pos ⟨hv1, hv0⟩]
  · rw [parse_request_line_eq_of_split line m u v h]
    rcases hv with rfl | rfl
    · rw [if_neg (fun hc => hc.1 rfl), if_pos ⟨hm1, hm2⟩]
    · rw [if_neg (fun hc => hc.2 rfl), if_pos ⟨hm1, hm2⟩]

/-- C6 witness: the taxonomy at the three concrete example lines `"GET"`,
`"GET /x HTTP/2.0"` and `"FETCH /x HTTP/1.1"`. -/
theorem request_line_error_taxonomy_witness :
    parse_request_line "GET".toList = .error (.BadRequest .default)
    ∧ parse_request_line "GET /x HTTP/2.0".toList = .error .VersionNotSupported
    ∧ parse_request_line "FETCH /x HTTP/1.1".toList
        = .error (.NotImplemented "FETCH".toList) :=
  ⟨(request_line_error_taxonomy "GET".toList).1 (by decide),
   (request_line_error_taxonomy "GET /x HTTP/2.0".toList).2.1
     "GET".toList "/x".toList "HTTP/2.0".toList (by decide) (by decide) (by decide),
   (request_line_error_taxonomy "FETCH /x HTTP/1.1".toList).2.2
     "FETCH".toList "/x".toList "HTTP/1.1".toList (by decide) (Or.inl rfl)
     (by decide) (by decide)⟩

/-- C7 counterexample: a block in which `X-TEST` occurs on two
non-continuation lines commits the single string `"b"` for `X-TEST` — the
second dictionary assignment overwrites the first — not the ordered list
`["a", "b"]` the claim requires. -/
theorem repeated_header_committed_overwrite :
    (Parser.run ["GET / HTTP/1.1\r\nX-TEST: a\r\nX-TEST: b\r\n\r\n".toList]).map
        (fun x => x.2)
      = .ok [ParentCall.setRequestLine sampleRequestLine,
             ParentCall.setHeaders [("X-TEST".toList, .str "b".toList)]] := by
  decide

/-- C7 (amended): when the same header name occurs on two non-continuation
lines, the committed collection maps the name to the value of the last
occurrence only; lists arise only from continuation lines. Stated for any two
header lines that parse to the same key. -/
theorem repeated_header_amended (l1 l2 k v1 v2 : Str)
    (hne1 : l1 ≠ []) (hne2 : l2 ≠ [])
    (hsp1 : ¬(l1.head? = some ' ' ∨ l1.head? = some '\t'))
    (hsp2 : ¬(l2.head? = some ' ' ∨ l2.head? = some '\t'))
    (h1 : header_from_line l1 = .ok (k, v1))
    (h2 : header_from_line l2 = .ok (k, v2)) :
    store_headers_from_lines none [] [l1, l2, []]
      = .ok (none, [(k, .str v2)]) := by
  simp only [store_headers_from_lines, if_neg hne1, if_neg hsp1, h1, if_neg hne2,
    if_neg hsp2, h2, flush_header_buffer, dictSet, if_pos rfl, if_true]

/-- C7 witness: the amended statement at the concrete lines `"X-TEST: a"` and
`"X-TEST: b"`. -/
theorem repeated_header_amended_witness :
    store_headers_from_lines none []
        ["X-TEST: a".toList, "X-TEST: b".toList, []]
      = .ok (none, [("X-TEST".toList, .str "b".toList)]) :=
  repeated_header_amended "X-TEST: a".toList "X-TEST: b".toList
    "X-TEST".toList "a".toList "b".toList
    (by decide) (by decide) (by decide) (by decide) (by decide) (by decide)

/-- C8: routing exhaustion does not produce `InternalServerError` through the
error hooks. When the router yields no candidate at all, the `for` loop body
never runs and the dispatch crashes reading the unbound local `route`; the
`HTTPErrorInternalServerError` raise is reachable only when the router yields
a falsy candidate, and even then it is raised bare, outside any handler. -/
theorem routing_exhaustion_crashes :
    routing_stage ([] : List (Option Nat)) = .unboundLocal
    ∧ routing_stage ([none] : List (Option Nat)) = .raisedInternalServerError := by
  constructor
  · rfl
  · rfl

/-- Helper: `Parser.consumeLines` never changes the EOL token. -/
theorem consumeLines_EOL (p : Parser) (calls : List ParentCall) (lines : List Str)
    (p' : Parser) (calls' : List ParentCall) (ret : Option Str)
    (h : Parser.consumeLines p calls lines = .ok (p', calls', ret)) :
    p'.EOL_TOKEN = p.EOL_TOKEN := by
  unfold Parser.consumeLines at h
  split at h
  · cases h
    rfl
  · split at h
    · split at h
      · exact absurd h (by simp)
      · split at h
        · cases h
          rfl
        · cases h
          rfl
    · cases h
      rfl

/-- C9: EOL stickiness. First, once `EOL_TOKEN` is fixed, any successful
`consume` call leaves it unchanged (its only assignment is guarded by the
token being undetermined). Second, with the token fixed to `"\r\n"`, a header
line whose interior holds a bare `"\n"` is committed as one header whose value
contains that newline — the other convention is line content, not a
delimiter. -/
theorem eol_stickiness :
    (∀ (p : Parser) (data e : Str) (p' : Parser) (calls : List ParentCall)
        (ret : Option Str),
      p.EOL_TOKEN = some e → p.consume data = .ok (p', calls, ret) →
      p'.EOL_TOKEN = some e)
    ∧ ((Parser.consume { EOL_TOKEN := some "\r\n".toList, needs_request_line := false }
          "X: a\nb\r\n\r\n".toList).map (fun x => x.2.1)
        = .ok [ParentCall.setHeaders [("X".toList, .str "a\nb".toList)]]) := by
  constructor
  · intro p data e p' calls ret h hc
    unfold Parser.consume at hc
    rw [h] at hc
    have hf : find_newline (some e) data = (some e, pyFind data e) := rfl
    rw [hf] at hc
    dsimp only at hc
    split at hc
    · cases hc
      rfl
    · split at hc
      · split at hc
        · split at hc
          · exact Except.noConfusion hc
          · split at hc
            · exact Except.noConfusion hc
            · rw [consumeLines_EOL _ _ _ _ _ _ hc]
        · rw [consumeLines_EOL _ _ _ _ _ _ hc]
      · split at hc
        · split at hc
          · exact Except.noConfusion hc
          · split at hc
            · exact Except.noConfusion hc
            · rw [consumeLines_EOL _ _ _ _ _ _ hc]
        · rw [consumeLines_EOL _ _ _ _ _ _ hc]
  · decide

/-- C9 witness: the invariance applied to a concrete parser with the token
fixed to `"\n"` and a concrete successful `consume`. -/
theorem eol_stickiness_witness :
    Parser.consume { EOL_TOKEN := some "\n".toList, needs_request_line := false }
        "A: b\n\n".toList
      = .ok ({ EOL_TOKEN := some "\n".toList, buffer := [], header_buffer := none,
               headers := [("A".toList, .str "b".toList)],
               needs_request_line := false, needs_headers := false },
             [ParentCall.setHeaders [("A".toList, .str "b".toList)]], none)
    ∧ ({ EOL_TOKEN := some "\n".toList, buffer := [], header_buffer := none,
         headers := [("A".toList, .str "b".toList)],
         needs_request_line := false, needs_headers := false } : Parser).EOL_TOKEN
        = some "\n".toList :=
  ⟨by decide,
   eol_stickiness.1
     { EOL_TOKEN := some "\n".toList, needs_request_line := false }
     "A: b\n\n".toList "\n".toList
     { EOL_TOKEN := some "\n".toList, buffer := [], header_buffer := none,
       headers := [("A".toList, .str "b".toList)],
       needs_request_line := false, needs_headers := false }
     [ParentCall.setHeaders [("A".toList, .str "b".toList)]] none rfl (by decide)⟩

/-- C10: for a request whose method is neither POST nor PUT,
`set_request_line` leaves the declared content length uninitialised (`None`),
and consequently `validate_and_store_body_data` fails with
`BadRequest("Unexpected body data sent")` on any data — the failure happens at
`self.content_length += len(data)` before the headers are consulted, so a
supplied `Content-Length` header makes no difference. -/
theorem no_body_without_post_put (r : Responder) (rl : RequestLine) (data : Str)
    (hm : methodAllowsBody rl.method = false)
    (hcl : r.content_length = none) :
    ((r.set_request_line rl).content_length = none)
    ∧ ((r.set_request_line rl).validate_and_store_body_data data
        = .error (.http (.BadRequest .unexpectedBody))) := by
  have h1 : (r.set_request_line rl).content_length = none := by
    simp [Responder.set_request_line, hm, hcl]
  refine ⟨h1, ?_⟩
  unfold Responder.validate_and_store_body_data validate_body_try
  rw [h1]

/-- C10 witness: a GET request on a fresh connection whose protocol even holds
a `CONTENT-LENGTH` header; body data still fails with the generic
`BadRequest`. -/
theorem no_body_without_post_put_witness :
    methodAllowsBody "GET".toList = false
    ∧ (({ client_headers := some [(CONTENT_LENGTH, .str "3".toList)] } :
          Responder).set_request_line sampleRequestLine).validate_and_store_body_data
        "abc".toList = .error (.http (.BadRequest .unexpectedBody)) :=
  ⟨by decide,
   (no_body_without_post_put
     { client_headers := some [(CONTENT_LENGTH, .str "3".toList)] }
     sampleRequestLine "abc".toList (by decide) rfl).2⟩

end Growler
